import Mathlib

/-!
# Verification of `giga_auto_qc/assessments.py`

A shallow embedding of the metric computation and decision pipeline of
`giga_auto_qc` (reference-mask selection, motion/scrubbing statistics, Dice
coefficient, rule-based pass/fail aggregation), together with theorems
settling the specification claims.

Python floats that can be NaN are modelled by `PFloat` (a rational value or
`nan`); comparisons against `nan` are `false`, as in IEEE/numpy semantics.
Python exceptions are modelled by `Except PyError`.  DataFrames are modelled
by `MetricsFrame`: an index name together with rows keyed by the index value.
External collaborators (BIDS layout queries, volume loading, resampling) are
parameters of the embedded functions.
-/

/-- A Python float that may be NaN: either a rational value or `nan`.
Exact rationals stand in for IEEE doubles; the claims under study only use
order comparisons and exact thresholds. -/
inductive PFloat where
  | val (q : ℚ)
  | nan
deriving DecidableEq, Repr

/-- `a < b` with numpy semantics: any comparison involving NaN is `False`. -/
def PFloat.lt : PFloat → PFloat → Bool
  | .val a, .val b => decide (a < b)
  | _, _ => false

/-- `a > b` with numpy semantics: any comparison involving NaN is `False`. -/
def PFloat.gt : PFloat → PFloat → Bool
  | .val a, .val b => decide (b < a)
  | _, _ => false

/-- Python exceptions that the embedded pipeline can raise. -/
inductive PyError where
  | indexError
  | keyError
  | valueError
  | zeroDivisionError
deriving DecidableEq, Repr

/-- The scanner of Python's `str.split(sep)` for a non-empty separator, on
character lists, with explicit fuel (one unit per character) so that it is
structurally recursive and kernel-computable.  Occurrences of the separator
are found left to right, non-overlapping, exactly as in CPython. -/
def py_split_go (pat : List Char) : ℕ → List Char → List (List Char)
  | _, [] => [[]]
  | 0, c :: rest => [c :: rest]
  | fuel+1, c :: rest =>
    if pat.isPrefixOf (c :: rest) then
      [] :: py_split_go pat fuel (List.drop (pat.length - 1) rest)
    else
      match py_split_go pat fuel rest with
      | [] => [[c]]
      | t :: ts => (c :: t) :: ts

/-- Python `s.split(pat)` for a non-empty literal separator. -/
def py_split (s pat : String) : List String :=
  if pat.data.isEmpty then [s]
  else (py_split_go pat.data s.data.length s.data).map String.mk

/-- Python `s.replace(pat, repl)` (and pandas `str.replace` with
`regex=False`): every non-overlapping occurrence of `pat`, scanned left to
right, is replaced — equivalently the split pieces joined with the
replacement. -/
def py_replace (s pat repl : String) : String :=
  String.intercalate repl (py_split s pat)

/-- An in-memory volume as produced by `nilearn.image.load_img` followed by
`get_fdata().astype(bool)`: an affine (flattened to a list of rationals) and
the boolean voxel data (flattened). -/
structure Volume where
  affine : List ℚ
  data : List Bool
deriving DecidableEq, Repr

/-- Number of `true` entries, i.e. `np.sum` of a boolean array. -/
def countTrue (l : List Bool) : ℕ :=
  l.count true

/-- `_dice_coefficient` from `assessments.py`.  The external
`nilearn.image.resample_to_img` (nearest-neighbour) is a parameter
`resample`; it is invoked exactly when the affines differ, as in the source.
`np.logical_and` of same-shape arrays is the element-wise conjunction of the
zipped data; `2 * intersection / total_elements` is an IEEE division, which
produces NaN when `total_elements = 0` (the source does not guard). -/
def _dice_coefficient (resample : Volume → Volume → Volume)
    (processed_img : Volume) (template_mask : Volume) : PFloat :=
  let template_mask' :=
    if template_mask.affine ≠ processed_img.affine then
      resample template_mask processed_img
    else template_mask
  let intersection :=
    countTrue ((processed_img.data.zip template_mask'.data).map
      (fun p => p.1 && p.2))
  let total_elements := countTrue processed_img.data + countTrue template_mask'.data
  if total_elements = 0 then PFloat.nan
  else PFloat.val (2 * (intersection : ℚ) / (total_elements : ℚ))

/-- The fixed template space name (`template` in `assessments.py`). -/
def template : String := "MNI152NLin2009cAsym"

/-- The fixed QC thresholds (`qulaity_control_standards` in
`assessments.py`; the source's spelling is kept). -/
structure QCStandards where
  mean_fd : ℚ
  scrubbing_fd : ℚ
  proportion_kept : ℚ
  anatomical_dice : ℚ
  functional_dice : ℚ

def qulaity_control_standards : QCStandards :=
  { mean_fd := 55/100
    scrubbing_fd := 2/10
    proportion_kept := 5/10
    anatomical_dice := 99/100
    functional_dice := 89/100 }

/-- A BIDS entity filter as passed to `fmriprep_bids_layout.get`. -/
structure BIDSFilter where
  subject : List String := []
  task : List String := []
  space : Option String := none
  desc : List String := []
  suffix : List String := []
  extension : Option String := none
  datatype : Option String := none
deriving DecidableEq, Repr

/-- The functional brain-mask filter built in `get_reference_mask` and
`calculate_functional_metrics`. -/
def func_mask_filter (subjects task : List String) : BIDSFilter :=
  { subject := subjects
    task := task
    space := some template
    desc := ["brain"]
    suffix := ["mask"]
    extension := some "nii.gz"
    datatype := some "func" }

/-- Modelled from the spec: `nilearn.masking.intersect_masks` (an external
collaborator) computes the voxel-wise majority vote — a voxel belongs to the
result iff the fraction of input masks containing it strictly exceeds the
threshold. -/
def intersect_masks (masks : List Volume) (threshold : ℚ) : Volume :=
  let n := masks.length
  let first := masks.headD { affine := [], data := [] }
  { affine := first.affine
    data := (List.range first.data.length).map
      (fun i => decide (threshold < ((masks.countP (fun m => m.data.getD i false)) : ℚ) / (n : ℚ))) }

/-- Reference brain masks for anatomical and functional scans (the dict
returned by `get_reference_mask`). -/
structure ReferenceMasks where
  anat : Volume
  func : Volume
deriving DecidableEq, Repr

/-- `get_reference_mask` from `assessments.py`.  The external
`templateflow.api.get` result is the parameter `template_mask` (held as a
loaded volume); the BIDS layout query is the parameter `layoutGet`
(returning file paths) and volume loading is `loadVol`. -/
def get_reference_mask (analysis_level : String) (subjects : List String)
    (task : List String) (layoutGet : BIDSFilter → List String)
    (loadVol : String → Volume) (template_mask : Volume) : ReferenceMasks :=
  if analysis_level = "group" ∧ 1 < subjects.length then
    { anat := template_mask
      func := intersect_masks
        ((layoutGet (func_mask_filter subjects task)).map loadVol) (5/10) }
  else
    { anat := template_mask, func := template_mask }

/-- A pandas `DataFrame` keyed by an index of strings: the index `name`
attribute and the rows, each an index value paired with its record. -/
structure MetricsFrame (α : Type) where
  indexName : Option String := none
  rows : List (String × α)
deriving DecidableEq, Repr

/-- `DataFrame.sort_index()`: rows sorted ascending by index value. -/
def sort_index (rows : List (String × α)) : List (String × α) :=
  rows.mergeSort (fun a b => decide (a.1 ≤ b.1))

/-- One row of the functional metrics table.  A field a phase did not
compute is NaN in the merged `pd.DataFrame` (for `pass_func_qc`, an absent
column is `none`). -/
structure FuncRow where
  mean_fd_raw : PFloat := .nan
  mean_fd_scrubbed : PFloat := .nan
  proportion_kept : PFloat := .nan
  functional_dice : PFloat := .nan
  pass_func_qc : Option Bool := none
deriving DecidableEq, Repr

/-- One row of the anatomical metrics table returned by
`calculate_anat_metrics`. -/
structure AnatRow where
  anatomical_dice : PFloat
  pass_qc : Bool
deriving DecidableEq, Repr

/-- One row of the combined table returned by `quality_accessments`. -/
structure CombinedRow where
  mean_fd_raw : PFloat
  mean_fd_scrubbed : PFloat
  proportion_kept : PFloat
  functional_dice : PFloat
  pass_func_qc : Bool
  anatomical_dice : PFloat
  pass_anat_qc : Bool
  pass_all_qc : Bool
deriving DecidableEq, Repr

/-- `np.nanmean`: the mean of the non-NaN entries; NaN when there are
none. -/
def nanmean (xs : List PFloat) : PFloat :=
  let vals := xs.filterMap (fun x => match x with | .val q => some q | .nan => none)
  if vals.length = 0 then .nan
  else .val (vals.sum / (vals.length : ℚ))

/-- The boolean kept-volume mask:
`framewise_displacements < qulaity_control_standards["scrubbing_fd"]`.
A NaN displacement compares `False`. -/
def kept_volumes (fds : List PFloat) : List Bool :=
  fds.map (fun x => PFloat.lt x (.val qulaity_control_standards.scrubbing_fd))

/-- numpy boolean fancy indexing `xs[mask]`. -/
def bool_index (xs : List PFloat) (mask : List Bool) : List PFloat :=
  (xs.zip mask).filterMap (fun p => if p.2 then some p.1 else none)

/-- The motion-metric computation in the body of the first loop of
`calculate_functional_metrics`, for one confound file's
`framewise_displacement` column.  Python raises `ZeroDivisionError` in
`sum(kept_volumes) / timeseries_length` when the column is empty. -/
def motion_metrics (framewise_displacements : List PFloat) : Except PyError FuncRow :=
  let timeseries_length := framewise_displacements.length
  let kept := kept_volumes framewise_displacements
  if timeseries_length = 0 then .error .zeroDivisionError
  else .ok
    { mean_fd_raw := nanmean framewise_displacements
      mean_fd_scrubbed := nanmean (bool_index framewise_displacements kept)
      proportion_kept := .val ((countTrue kept : ℚ) / (timeseries_length : ℚ))
      functional_dice := .nan
      pass_func_qc := none }

/-- `Path(file).name`: the part after the last path separator. -/
def path_name (file : String) : String :=
  (py_split file "/").getLastD file

/-- `Path(confound_file).name.split("_desc-confounds")[0]`. -/
def confound_identifier (file : String) : String :=
  (py_split (path_name file) "_desc-confounds").headD ""

/-- `Path(func_file).name.split(f"_space-{template}")[0]`. -/
def func_identifier (file : String) : String :=
  (py_split (path_name file) ("_space-" ++ template)).headD ""

/-- Python dict assignment `d[k] = v`: replace the value in place if the
key exists, otherwise append. -/
def dict_set (d : List (String × FuncRow)) (k : String) (v : FuncRow) :
    List (String × FuncRow) :=
  if d.any (fun p => p.1 == k) then
    d.map (fun p => if p.1 == k then (k, v) else p)
  else d ++ [(k, v)]

/-- The dice-phase update of `calculate_functional_metrics`:
`metrics[id].update(functional_dice)` when the identifier is present,
otherwise a fresh row holding only the dice score. -/
def dict_update_dice (d : List (String × FuncRow)) (k : String) (dice : PFloat) :
    List (String × FuncRow) :=
  if d.any (fun p => p.1 == k) then
    d.map (fun p => if p.1 == k then (p.1, { p.2 with functional_dice := dice }) else p)
  else d ++ [(k, { functional_dice := dice })]

/-- The confounds filter built in `calculate_functional_metrics`. -/
def confounds_filter (subjects task : List String) : BIDSFilter :=
  { subject := subjects
    task := task
    desc := ["confounds"]
    extension := some "tsv" }

/-- The motion loop of `calculate_functional_metrics`: read each
confound file's `framewise_displacement` column (external `pd.read_csv`,
parameter `readFD`) and store the motion metrics under the stripped
identifier. -/
def motion_loop (confounds : List String) (readFD : String → List PFloat)
    (acc : List (String × FuncRow)) : Except PyError (List (String × FuncRow)) :=
  match confounds with
  | [] => .ok acc
  | f :: rest =>
    match motion_metrics (readFD f) with
    | .error e => .error e
    | .ok row => motion_loop rest readFD (dict_set acc (confound_identifier f) row)

/-- The dice loop of `calculate_functional_metrics`. -/
def dice_loop (files : List String) (loadVol : String → Volume)
    (resample : Volume → Volume → Volume) (reference_func : Volume)
    (acc : List (String × FuncRow)) : List (String × FuncRow) :=
  match files with
  | [] => acc
  | f :: rest =>
    dice_loop rest loadVol resample reference_func
      (dict_update_dice acc (func_identifier f)
        (_dice_coefficient resample (loadVol f) reference_func))

/-- `calculate_functional_metrics` from `assessments.py`.  External
collaborators are parameters: `layoutGet` (the BIDS layout query, returning
file paths), `readFD` (reading the `framewise_displacement` column of a
confound file), `loadVol` and `resample` (volume I/O). -/
def calculate_functional_metrics (subjects task : List String)
    (layoutGet : BIDSFilter → List String) (readFD : String → List PFloat)
    (loadVol : String → Volume) (resample : Volume → Volume → Volume)
    (reference_masks : ReferenceMasks) : Except PyError (MetricsFrame FuncRow) :=
  match motion_loop (layoutGet (confounds_filter subjects task)) readFD [] with
  | .error e => .error e
  | .ok d =>
    .ok { indexName := none
          rows := sort_index (dice_loop (layoutGet (func_mask_filter subjects task))
            loadVol resample reference_masks.func d) }

/-- The anatomical brain-mask filter built per subject in
`calculate_anat_metrics`. -/
def anat_mask_filter (sub : String) : BIDSFilter :=
  { subject := [sub]
    space := some template
    desc := ["brain"]
    suffix := ["mask"]
    extension := some "nii.gz"
    datatype := some "anat" }

/-- The per-subject loop of `calculate_anat_metrics`: `anat_image[0]`
raises `IndexError` when the query returns no file. -/
def anat_dice_loop (subjects : List String) (layoutGet : BIDSFilter → List String)
    (loadVol : String → Volume) (resample : Volume → Volume → Volume)
    (reference_anat : Volume) : Except PyError (List (String × PFloat)) :=
  match subjects with
  | [] => .ok []
  | sub :: rest =>
    match layoutGet (anat_mask_filter sub) with
    | [] => .error .indexError
    | f :: _ =>
      match anat_dice_loop rest layoutGet loadVol resample reference_anat with
      | .error e => .error e
      | .ok rows =>
        .ok ((sub, _dice_coefficient resample (loadVol f) reference_anat) :: rows)

/-- `calculate_anat_metrics` from `assessments.py`.  With an empty subject
list the constructed frame has no columns, so the column access
`metrics["anatomical_dice"]` in the `pass_qc` assignment raises
`KeyError`. -/
def calculate_anat_metrics (subjects : List String)
    (layoutGet : BIDSFilter → List String) (loadVol : String → Volume)
    (resample : Volume → Volume → Volume) (reference_masks : ReferenceMasks) :
    Except PyError (MetricsFrame AnatRow) :=
  match anat_dice_loop subjects layoutGet loadVol resample reference_masks.anat with
  | .error e => .error e
  | .ok [] => .error .keyError
  | .ok (r :: rows) =>
    .ok { indexName := none
          rows := sort_index ((r :: rows).map (fun p =>
            (p.1, { anatomical_dice := p.2
                    pass_qc := PFloat.gt p.2 (.val qulaity_control_standards.anatomical_dice) }))) }

/-- The per-row value of the column assignment
`functional_metrics["pass_func_qc"] = keep_fd * keep_proportion * keep_func`
in `quality_accessments`; numpy multiplication of booleans is
conjunction. -/
def pass_func_qc_value (r : FuncRow) : Bool :=
  let keep_fd := PFloat.lt r.mean_fd_raw (.val qulaity_control_standards.mean_fd)
  let keep_proportion :=
    PFloat.gt r.proportion_kept (.val qulaity_control_standards.proportion_kept)
  let keep_func :=
    PFloat.gt r.functional_dice (.val qulaity_control_standards.functional_dice)
  keep_fd && keep_proportion && keep_func

/-- `id.split("sub-")[-1].split("_")[0]` in `quality_accessments`. -/
def extract_subject (id : String) : String :=
  (py_split ((py_split id "sub-").getLastD id) "_").headD ""

/-- The anatomical cross-reference loop of `quality_accessments`:
`anatomical_metrics.loc[sub, ...]` raises `KeyError` when the subject is
absent from the anatomical index. -/
def pass_anat_loop (ids : List (String × FuncRow))
    (anat : List (String × AnatRow)) :
    Except PyError (List (String × AnatRow)) :=
  match ids with
  | [] => .ok []
  | (id, _) :: rest =>
    match anat.lookup (extract_subject id) with
    | none => .error .keyError
    | some a =>
      match pass_anat_loop rest anat with
      | .error e => .error e
      | .ok rows => .ok ((id, a) :: rows)

/-- `quality_accessments` from `assessments.py`.  The first component of the
result is the `functional_metrics` argument as the caller sees it after the
call: the in-place column assignment
`functional_metrics["pass_func_qc"] = ...` happens before the anatomical
lookups, so it is visible even when a lookup raises.  The second component
is the returned combined table (or the propagated error). -/
def quality_accessments (functional_metrics : MetricsFrame FuncRow)
    (anatomical_metrics : MetricsFrame AnatRow) :
    MetricsFrame FuncRow × Except PyError (MetricsFrame CombinedRow) :=
  let mutated : MetricsFrame FuncRow :=
    { functional_metrics with
      rows := functional_metrics.rows.map
        (fun p => (p.1, { p.2 with pass_func_qc := some (pass_func_qc_value p.2) })) }
  (mutated,
    match pass_anat_loop mutated.rows anatomical_metrics.rows with
    | .error e => .error e
    | .ok anat_qc =>
      .ok { indexName := functional_metrics.indexName
            rows := (mutated.rows.zip anat_qc).map (fun p =>
              (p.1.1,
                { mean_fd_raw := p.1.2.mean_fd_raw
                  mean_fd_scrubbed := p.1.2.mean_fd_scrubbed
                  proportion_kept := p.1.2.proportion_kept
                  functional_dice := p.1.2.functional_dice
                  pass_func_qc := p.1.2.pass_func_qc.getD false
                  anatomical_dice := p.2.2.anatomical_dice
                  pass_anat_qc := p.2.2.pass_qc
                  pass_all_qc := p.1.2.pass_func_qc.getD false && p.2.2.pass_qc })) })

/-- `headers = [e.split("-")[0] for e in metrics.index[0].split("_")]` in
`parse_scan_information`. -/
def parse_headers (id0 : String) : List String :=
  (py_split id0 "_").map (fun e => (py_split e "-").headD "")

/-- The column rename `sub` to `participant_id`. -/
def rename_sub (h : String) : String :=
  if h = "sub" then "participant_id" else h

/-- The entity columns of one row of `parse_scan_information`: the
identifier is split on the separator, positionally assigned to the header
columns (pandas fills missing trailing tokens with `None`), and each value
has every occurrence of its `key-` marker removed by `str.replace`. -/
def parse_row_entities (headers : List String) (id : String) :
    List (String × Option String) :=
  let toks := py_split id "_"
  headers.enum.map (fun p =>
    (rename_sub p.2, (toks.get? p.1).map (fun t => py_replace t (p.2 ++ "-") "")))

/-- The widest token count over all identifiers: the column count of the
expanded `str.split` frame.  pandas raises `ValueError` in
`identifiers[headers] = ...` when it differs from the header count. -/
def max_token_count (rows : List (String × α)) : ℕ :=
  rows.foldl (fun m p => max m (py_split p.1 "_").length) 0

/-- `parse_scan_information` from `assessments.py`.  The first component is
the input frame as the caller sees it after the call: the assignment
`metrics.index.name = "identifier"` mutates the argument in place before
anything else.  The second component is the returned annotated frame, each
row carrying its parsed entity columns in front of the original record. -/
def parse_scan_information (metrics : MetricsFrame α) :
    MetricsFrame α × Except PyError (MetricsFrame (List (String × Option String) × α)) :=
  let mutated := { metrics with indexName := some "identifier" }
  (mutated,
    match metrics.rows with
    | [] => .error .indexError
    | (id0, _) :: _ =>
      let headers := parse_headers id0
      if max_token_count metrics.rows ≠ headers.length then
        .error .valueError
      else
        .ok { indexName := some "identifier"
              rows := metrics.rows.map (fun p =>
                (p.1, (parse_row_entities headers p.1, p.2))) })

/-- Reconstruction of an identifier from parsed entity values: the values
re-prefixed with their `key-` markers and joined with the separator (the
round-trip direction stated by the spec). -/
def rejoin_identifier (headers : List String) (entities : List (String × Option String)) :
    String :=
  "_".intercalate ((headers.zip entities).map (fun p => p.1 ++ "-" ++ p.2.2.getD ""))

/-! ### Concrete fixtures for instantiating the theorems -/

/-- A mask volume with no voxel set. -/
def empty_vol : Volume := { affine := [1], data := [false, false] }

/-- A small non-empty mask volume. -/
def vol_A : Volume := { affine := [1], data := [true, true, false] }

/-- Another small non-empty mask volume on the same grid. -/
def vol_B : Volume := { affine := [1], data := [true, false, true] }

/-- A stand-in for the external resampler in concrete instantiations. -/
def triv_resample : Volume → Volume → Volume := fun t _ => t

/-- A layout query returning no file for any filter. -/
def nil_layout : BIDSFilter → List String := fun _ => []

/-- A layout query returning the same two files for any filter. -/
def two_file_layout : BIDSFilter → List String := fun _ => ["m1", "m2"]

/-- A loader returning the same volume for any path. -/
def const_load : String → Volume := fun _ => vol_A

/-- A reference-mask fixture. -/
def refs_fixture : ReferenceMasks := { anat := vol_A, func := vol_A }

/-- A functional row sitting exactly on the `mean_fd` threshold, other
criteria satisfied. -/
def boundary_row : FuncRow :=
  { mean_fd_raw := .val (55/100)
    mean_fd_scrubbed := .val (1/10)
    proportion_kept := .val (8/10)
    functional_dice := .val (9/10)
    pass_func_qc := none }

/-- A one-row functional metrics fixture on the threshold boundary. -/
def func_fixture : MetricsFrame FuncRow :=
  { indexName := none, rows := [("sub-01_task-rest", boundary_row)] }

/-- An anatomical metrics fixture holding subject `01` only. -/
def anat_fixture : MetricsFrame AnatRow :=
  { indexName := none
    rows := [("01", { anatomical_dice := .val 1, pass_qc := true })] }

/-- A functional metrics fixture whose row references subject `03`, absent
from `anat_fixture`. -/
def func_missing_fixture : MetricsFrame FuncRow :=
  { indexName := none, rows := [("sub-03_task-rest", {})] }

/-- A functional metrics fixture with an all-default (NaN) row, used to
exhibit in-place mutation. -/
def mutate_fixture : MetricsFrame FuncRow :=
  { indexName := none, rows := [("sub-01_task-rest", {})] }

/-- A one-row frame whose identifier embeds its own `sub-` marker in the
value. -/
def embedded_marker_fixture : MetricsFrame PFloat :=
  { indexName := none, rows := [("sub-sub-01", .val 1)] }

/-- A well-formed one-row frame for the parsing claims. -/
def parse_fixture : MetricsFrame PFloat :=
  { indexName := none, rows := [("sub-01_task-rest", .val 1)] }

/-- A framewise-displacement column with one missing value. -/
def fds_fixture : List PFloat := [.nan, .val 0, .val 1]

/-! ### Helper lemmas -/

theorem go_data (sep : String) (as : List String) (acc : String) :
    (String.intercalate.go acc sep as).data
      = acc.data ++ (as.map (fun a => sep.data ++ a.data)).flatten := by
  induction as generalizing acc with
  | nil => simp [String.intercalate.go]
  | cons a as ih => simp [String.intercalate.go, ih, List.append_assoc]

theorem intercalate_cons_eq (sep : List Char) (a : List Char) (rest : List (List Char)) :
    List.intercalate sep (a :: rest) = a ++ (rest.map (fun x => sep ++ x)).flatten := by
  induction rest generalizing a with
  | nil => simp [List.intercalate, List.intersperse]
  | cons b t ih =>
      simp only [List.intercalate, List.intersperse] at ih ⊢
      simp [ih]

theorem intercalate_data (sep : String) (l : List (List Char)) :
    (String.intercalate sep (l.map String.mk)).data = List.intercalate sep.data l := by
  cases l with
  | nil => simp [String.intercalate, List.intercalate, List.intersperse]
  | cons a rest =>
      simp only [List.map, String.intercalate]
      rw [go_data, intercalate_cons_eq]
      simp only [List.map_map]
      rfl

theorem py_split_go_ne_nil (pat : List Char) (fuel : ℕ) (s : List Char) :
    py_split_go pat fuel s ≠ [] := by
  match fuel, s with
  | _, [] => simp [py_split_go]
  | 0, c :: rest => simp [py_split_go]
  | fuel+1, c :: rest =>
    simp only [py_split_go]
    split
    · simp
    · split
      · simp
      · simp

theorem go_intercalate (pat : List Char) (hp : pat ≠ []) :
    ∀ (fuel : ℕ) (s : List Char), s.length ≤ fuel →
      List.intercalate pat (py_split_go pat fuel s) = s := by
  intro fuel
  induction fuel with
  | zero =>
      intro s hs
      match s with
      | [] => simp [py_split_go, List.intercalate, List.intersperse]
  | succ fuel ih =>
      intro s hs
      match s with
      | [] => simp [py_split_go, List.intercalate, List.intersperse]
      | c :: rest =>
        have h2 : rest.length ≤ fuel := by simp at hs; omega
        simp only [py_split_go]
        by_cases hpre : pat.isPrefixOf (c :: rest)
        · rw [if_pos hpre]
          have hpref : pat <+: (c :: rest) := List.isPrefixOf_iff_prefix.mp hpre
          have heq : pat ++ List.drop pat.length (c :: rest) = c :: rest :=
            List.prefix_iff_eq_append.mp hpref
          have hdrop : List.drop pat.length (c :: rest) = List.drop (pat.length - 1) rest := by
            match pat, hp with
            | p :: ps, _ => simp [List.drop_succ_cons]
          have hlen : (List.drop (pat.length - 1) rest).length ≤ fuel := by
            have h1 : (List.drop (pat.length - 1) rest).length ≤ rest.length := by
              simp
            omega
          have hrec := ih (List.drop (pat.length - 1) rest) hlen
          obtain ⟨t, ts, hts⟩ :
              ∃ t ts, py_split_go pat fuel (List.drop (pat.length - 1) rest) = t :: ts := by
            cases hgo : py_split_go pat fuel (List.drop (pat.length - 1) rest) with
            | nil => exact absurd hgo (py_split_go_ne_nil pat fuel _)
            | cons t ts => exact ⟨t, ts, rfl⟩
          rw [hts]
          rw [hts, intercalate_cons_eq] at hrec
          rw [intercalate_cons_eq]
          simp only [List.nil_append, List.map_cons, List.flatten_cons]
          rw [List.append_assoc, hrec, ← hdrop, heq]
        · rw [if_neg hpre]
          have hrec := ih rest h2
          obtain ⟨t, ts, hts⟩ : ∃ t ts, py_split_go pat fuel rest = t :: ts := by
            cases hgo : py_split_go pat fuel rest with
            | nil => exact absurd hgo (py_split_go_ne_nil pat fuel _)
            | cons t ts => exact ⟨t, ts, rfl⟩
          rw [hts]
          rw [hts, intercalate_cons_eq] at hrec
          rw [intercalate_cons_eq]
          simp only [List.cons_append]
          rw [hrec]

theorem py_split_intercalate (s sep : String) (h : sep.data ≠ []) :
    String.intercalate sep (py_split s sep) = s := by
  apply String.ext
  unfold py_split
  rw [if_neg (by simpa [List.isEmpty_iff] using h)]
  rw [intercalate_data]
  exact go_intercalate sep.data h s.data.length s.data le_rfl

theorem zip_and_comm (xs ys : List Bool) :
    (xs.zip ys).map (fun p => p.1 && p.2) = (ys.zip xs).map (fun p => p.1 && p.2) := by
  induction xs generalizing ys with
  | nil => cases ys <;> simp
  | cons x xt ih =>
      cases ys with
      | nil => simp
      | cons y yt => simp [ih, Bool.and_comm]

/-! ### Claim C2 (corrected) -/

/-- Claim C2, as stated, is false on the code: for two entirely empty
volumes the division `2 * intersection / total_elements` is `0 / 0`, so
`_dice_coefficient` yields NaN, not 0. -/
theorem dice_empty_masks_not_zero :
    _dice_coefficient triv_resample empty_vol empty_vol ≠ PFloat.val 0 := by
  simp [_dice_coefficient, triv_resample, empty_vol, countTrue]

/-- Claim C2 (amended): for two binary volumes on the same grid that are
both entirely empty (`total_elements = 0`), `_dice_coefficient` divides by
zero and returns NaN (not 0). -/
theorem dice_empty_masks_nan (resample : Volume → Volume → Volume)
    (A B : Volume) (haff : A.affine = B.affine)
    (hA : countTrue A.data = 0) (hB : countTrue B.data = 0) :
    _dice_coefficient resample A B = PFloat.nan := by
  have hcond : ¬ (B.affine ≠ A.affine) := by simp [haff]
  simp only [_dice_coefficient, if_neg hcond]
  rw [if_pos (by omega)]

/-- Witness for `dice_empty_masks_nan` at two concrete empty volumes. -/
theorem dice_empty_masks_nan_witness :
    empty_vol.affine = empty_vol.affine ∧ countTrue empty_vol.data = 0 ∧
    _dice_coefficient triv_resample empty_vol empty_vol = PFloat.nan :=
  ⟨rfl, by decide,
   dice_empty_masks_nan triv_resample empty_vol empty_vol rfl (by decide) (by decide)⟩

/-! ### Claim C7 (confirmed) -/

/-- Claim C7: for two binary volumes on the same grid (identical affines,
so no resampling is invoked), the Dice coefficient is symmetric. -/
theorem dice_coefficient_symm (resample : Volume → Volume → Volume)
    (A B : Volume) (h : A.affine = B.affine) :
    _dice_coefficient resample A B = _dice_coefficient resample B A := by
  have hc1 : ¬ (B.affine ≠ A.affine) := by simp [h]
  have hc2 : ¬ (A.affine ≠ B.affine) := by simp [h]
  simp only [_dice_coefficient, if_neg hc1, if_neg hc2]
  rw [zip_and_comm, Nat.add_comm (countTrue A.data) (countTrue B.data)]

/-- Witness for `dice_coefficient_symm` at two concrete same-grid
volumes. -/
theorem dice_coefficient_symm_witness :
    vol_A.affine = vol_B.affine ∧
    _dice_coefficient triv_resample vol_A vol_B
      = _dice_coefficient triv_resample vol_B vol_A :=
  ⟨rfl, dice_coefficient_symm triv_resample vol_A vol_B rfl⟩

/-! ### Claim C10 (confirmed) -/

/-- Claim C10: on the empty subject list, `calculate_anat_metrics` does not
return an empty table: the constructed frame has no columns, so the
`pass_qc` assignment's column access raises `KeyError`. -/
theorem calculate_anat_metrics_empty_subjects_raises
    (layoutGet : BIDSFilter → List String) (loadVol : String → Volume)
    (resample : Volume → Volume → Volume) (reference_masks : ReferenceMasks) :
    calculate_anat_metrics [] layoutGet loadVol resample reference_masks
      = .error .keyError := rfl

/-! ### Claim C5 (confirmed) -/

theorem anat_dice_loop_missing (layoutGet : BIDSFilter → List String)
    (loadVol : String → Volume) (resample : Volume → Volume → Volume)
    (reference_anat : Volume) (subjects : List String)
    (h : ∃ sub ∈ subjects, layoutGet (anat_mask_filter sub) = []) :
    anat_dice_loop subjects layoutGet loadVol resample reference_anat
      = .error .indexError := by
  induction subjects with
  | nil => simp at h
  | cons s rest ih =>
      obtain ⟨x, hx, hempty⟩ := h
      rcases List.mem_cons.mp hx with h1 | h2
      · subst h1
        simp [anat_dice_loop, hempty]
      · cases hq : layoutGet (anat_mask_filter s) with
        | nil => simp [anat_dice_loop, hq]
        | cons f fs =>
            have hrest := ih ⟨x, h2, hempty⟩
            simp [anat_dice_loop, hq, hrest]

/-- Claim C5: when some subject's anatomical mask query returns zero files,
`calculate_anat_metrics` raises `IndexError` (from `anat_image[0]`),
producing no table. -/
theorem calculate_anat_metrics_missing_mask_raises (subjects : List String)
    (layoutGet : BIDSFilter → List String) (loadVol : String → Volume)
    (resample : Volume → Volume → Volume) (reference_masks : ReferenceMasks)
    (h : ∃ sub ∈ subjects, layoutGet (anat_mask_filter sub) = []) :
    calculate_anat_metrics subjects layoutGet loadVol resample reference_masks
      = .error .indexError := by
  unfold calculate_anat_metrics
  rw [anat_dice_loop_missing layoutGet loadVol resample reference_masks.anat subjects h]

/-- Witness for `calculate_anat_metrics_missing_mask_raises`: one subject,
a layout with no anatomical mask. -/
theorem calculate_anat_metrics_missing_mask_raises_witness :
    (∃ sub ∈ ["01"], nil_layout (anat_mask_filter sub) = []) ∧
    calculate_anat_metrics ["01"] nil_layout const_load triv_resample refs_fixture
      = .error .indexError :=
  ⟨⟨"01", by simp, rfl⟩,
   calculate_anat_metrics_missing_mask_raises ["01"] nil_layout const_load
     triv_resample refs_fixture ⟨"01", by simp, rfl⟩⟩

/-! ### Claim C4 (confirmed) -/

/-- Claim C4: `get_reference_mask` always uses the template mask as the
anatomical reference; the functional reference is the majority-vote
(threshold 0.5) intersection of the listed subjects' functional brain masks
exactly in the group-level, more-than-one-subject case, and is otherwise
the same anatomical template mask. -/
theorem get_reference_mask_func_branches (analysis_level : String)
    (subjects task : List String) (layoutGet : BIDSFilter → List String)
    (loadVol : String → Volume) (template_mask : Volume) :
    (get_reference_mask analysis_level subjects task layoutGet loadVol
        template_mask).anat = template_mask ∧
    ((analysis_level = "group" ∧ 1 < subjects.length) →
      (get_reference_mask analysis_level subjects task layoutGet loadVol
          template_mask).func
        = intersect_masks
            ((layoutGet (func_mask_filter subjects task)).map loadVol) (5/10)) ∧
    (¬ (analysis_level = "group" ∧ 1 < subjects.length) →
      (get_reference_mask analysis_level subjects task layoutGet loadVol
          template_mask).func
        = (get_reference_mask analysis_level subjects task layoutGet loadVol
            template_mask).anat) := by
  by_cases h : analysis_level = "group" ∧ 1 < subjects.length <;>
    simp [get_reference_mask, h]

/-- Witness for `get_reference_mask_func_branches`, discharging the group
branch at two subjects and the other branch at participant level. -/
theorem get_reference_mask_func_branches_witness :
    (get_reference_mask "group" ["01", "02"] ["rest"] two_file_layout
        const_load vol_B).func
      = intersect_masks
          ((two_file_layout (func_mask_filter ["01", "02"] ["rest"])).map const_load)
          (5/10) ∧
    (get_reference_mask "participant" ["01"] ["rest"] two_file_layout
        const_load vol_B).func
      = (get_reference_mask "participant" ["01"] ["rest"] two_file_layout
          const_load vol_B).anat :=
  ⟨(get_reference_mask_func_branches "group" ["01", "02"] ["rest"]
      two_file_layout const_load vol_B).2.1 ⟨rfl, by decide⟩,
   (get_reference_mask_func_branches "participant" ["01"] ["rest"]
      two_file_layout const_load vol_B).2.2 (by decide)⟩

/-! ### Claim C1 (confirmed) -/

/-- Claim C1: for every functional metrics row, `quality_accessments` sets
`pass_func_qc` to true iff `mean_fd_raw < 0.55` and `proportion_kept > 0.5`
and `functional_dice > 0.89` (all strict); in particular a row with
`mean_fd_raw` exactly `0.55` gets `pass_func_qc = false`. -/
theorem quality_accessments_pass_func_qc_iff (func : MetricsFrame FuncRow)
    (anat : MetricsFrame AnatRow) (id : String) (r : FuncRow)
    (hmem : (id, r) ∈ func.rows) :
    ((id, { r with pass_func_qc := some (pass_func_qc_value r) })
        ∈ (quality_accessments func anat).1.rows) ∧
    (∀ a p d : ℚ, r.mean_fd_raw = .val a → r.proportion_kept = .val p →
      r.functional_dice = .val d →
      (pass_func_qc_value r = true ↔ (a < 55/100 ∧ 5/10 < p ∧ 89/100 < d))) ∧
    (r.mean_fd_raw = .val (55/100) → pass_func_qc_value r = false) := by
  refine ⟨?_, ?_, ?_⟩
  · exact List.mem_map_of_mem
      (fun p => (p.1, { p.2 with pass_func_qc := some (pass_func_qc_value p.2) })) hmem
  · intro a p d ha hp hd
    simp [pass_func_qc_value, ha, hp, hd, PFloat.lt, PFloat.gt,
      qulaity_control_standards, and_assoc]
  · intro ha
    simp [pass_func_qc_value, ha, PFloat.lt, qulaity_control_standards]

/-- Witness for `quality_accessments_pass_func_qc_iff` at a concrete row
sitting exactly on the `mean_fd` threshold. -/
theorem quality_accessments_pass_func_qc_iff_witness :
    (("sub-01_task-rest",
        { boundary_row with pass_func_qc := some (pass_func_qc_value boundary_row) })
      ∈ (quality_accessments func_fixture anat_fixture).1.rows) ∧
    (pass_func_qc_value boundary_row = true
      ↔ ((55 : ℚ)/100 < 55/100 ∧ (5 : ℚ)/10 < 8/10 ∧ (89 : ℚ)/100 < 9/10)) ∧
    pass_func_qc_value boundary_row = false := by
  have H := quality_accessments_pass_func_qc_iff func_fixture anat_fixture
    "sub-01_task-rest" boundary_row (List.mem_cons_self _ _)
  exact ⟨H.1, H.2.1 (55/100) (8/10) (9/10) rfl rfl rfl, H.2.2 rfl⟩

/-! ### Claim C6 (confirmed) -/

theorem pass_anat_loop_missing (anat : List (String × AnatRow)) :
    ∀ (ids : List (String × FuncRow)) (id : String) (r : FuncRow),
      (id, r) ∈ ids → anat.lookup (extract_subject id) = none →
      pass_anat_loop ids anat = .error .keyError := by
  intro ids
  induction ids with
  | nil => intro id r h habs; simp at h
  | cons p rest ih =>
      intro id r h habs
      rcases List.mem_cons.mp h with h1 | h2
      · obtain ⟨i0, r0⟩ := p
        injection h1 with hid hr
        subst hid
        simp [pass_anat_loop, habs]
      · obtain ⟨i0, r0⟩ := p
        cases hl : anat.lookup (extract_subject i0) with
        | none => simp [pass_anat_loop, hl]
        | some a =>
            have hrest := ih id r h2 habs
            simp [pass_anat_loop, hl, hrest]

/-- Claim C6: a functional row whose extracted subject token is absent from
the anatomical table makes `quality_accessments` raise `KeyError`
(`anatomical_metrics.loc[sub, ...]`), propagated as the result. -/
theorem quality_accessments_missing_subject_raises (func : MetricsFrame FuncRow)
    (anat : MetricsFrame AnatRow) (id : String) (r : FuncRow)
    (hmem : (id, r) ∈ func.rows)
    (habs : anat.rows.lookup (extract_subject id) = none) :
    (quality_accessments func anat).2 = .error .keyError := by
  have hmut : (id, { r with pass_func_qc := some (pass_func_qc_value r) })
      ∈ func.rows.map
        (fun p => (p.1, { p.2 with pass_func_qc := some (pass_func_qc_value p.2) })) :=
    List.mem_map_of_mem _ hmem
  have hloop := pass_anat_loop_missing anat.rows
    (func.rows.map
      (fun p => (p.1, { p.2 with pass_func_qc := some (pass_func_qc_value p.2) })))
    id _ hmut habs
  simp only [quality_accessments]
  rw [hloop]

/-- Witness for `quality_accessments_missing_subject_raises`: the
functional row references subject `03`, absent from the anatomical
fixture. -/
theorem quality_accessments_missing_subject_raises_witness :
    anat_fixture.rows.lookup (extract_subject "sub-03_task-rest") = none ∧
    (quality_accessments func_missing_fixture anat_fixture).2
      = .error .keyError :=
  ⟨by decide,
   quality_accessments_missing_subject_raises func_missing_fixture anat_fixture
     "sub-03_task-rest" {} (List.mem_cons_self _ _) (by decide)⟩

/-! ### Claim C3 (corrected) -/

/-- Claim C3, as stated, is false on the code: at a concrete input,
`quality_accessments` mutates its `functional_metrics` argument in place
(the `pass_func_qc` column assignment) and `parse_scan_information` mutates
its argument's index name. -/
theorem pipeline_mutates_inputs :
    (quality_accessments mutate_fixture anat_fixture).1 ≠ mutate_fixture ∧
    (parse_scan_information mutate_fixture).1 ≠ mutate_fixture := by
  exact ⟨by decide, by decide⟩

/-- Claim C3 (amended): the only mutations are these two — and nothing
else: `quality_accessments` rewrites its functional input only by setting
each row's `pass_func_qc` (identifiers, index name and all other fields are
preserved), and `parse_scan_information` only sets the index name of its
input to `identifier` (rows are preserved). -/
theorem pipeline_mutation_characterization :
    (∀ (func : MetricsFrame FuncRow) (anat : MetricsFrame AnatRow),
      (quality_accessments func anat).1
        = { indexName := func.indexName
            rows := func.rows.map (fun p =>
              (p.1, { p.2 with pass_func_qc := some (pass_func_qc_value p.2) })) }) ∧
    (∀ (α : Type) (m : MetricsFrame α),
      (parse_scan_information m).1
        = { indexName := some "identifier", rows := m.rows }) :=
  ⟨fun _ _ => rfl, fun _ _ => rfl⟩

/-! ### Claim C9 (confirmed) -/

theorem nan_not_mem_bool_index (fds : List PFloat) :
    PFloat.nan ∉ bool_index fds (kept_volumes fds) := by
  induction fds with
  | nil => simp [bool_index, kept_volumes]
  | cons x xs ih =>
      simp only [kept_volumes, List.map_cons, bool_index, List.zip_cons_cons,
        List.filterMap_cons] at ih ⊢
      cases x with
      | nan => simpa [PFloat.lt] using ih
      | val q =>
          cases hlt : PFloat.lt (.val q) (.val qulaity_control_standards.scrubbing_fd) with
          | false => simpa [hlt] using ih
          | true => simpa [hlt] using ih

theorem countTrue_le_length (l : List Bool) : countTrue l ≤ l.length :=
  List.count_le_length true l

theorem PFloat.lt_nan_left (y : PFloat) : PFloat.lt .nan y = false := rfl

theorem countTrue_kept_cons_nan (xs : List PFloat) :
    countTrue (kept_volumes (PFloat.nan :: xs)) = countTrue (kept_volumes xs) := by
  simp [kept_volumes, countTrue, List.count_cons, PFloat.lt_nan_left]

theorem countTrue_kept_cons_le (x : PFloat) (xs : List PFloat) :
    countTrue (kept_volumes (x :: xs)) ≤ countTrue (kept_volumes xs) + 1 := by
  simp only [kept_volumes, List.map_cons, countTrue, List.count_cons]
  split <;> omega

theorem countTrue_kept_lt_length (fds : List PFloat) (h : PFloat.nan ∈ fds) :
    countTrue (kept_volumes fds) < fds.length := by
  induction fds with
  | nil => simp at h
  | cons x xs ih =>
      cases x with
      | nan =>
          have hb : countTrue (kept_volumes xs) ≤ xs.length := by
            simpa [kept_volumes] using countTrue_le_length (kept_volumes xs)
          rw [countTrue_kept_cons_nan]
          simp only [List.length_cons]
          omega
      | val q =>
          have hxs : PFloat.nan ∈ xs := by
            rcases List.mem_cons.mp h with h1 | h2
            · exact absurd h1.symm (by simp)
            · exact h2
          have hlt := ih hxs
          have hcons := countTrue_kept_cons_le (PFloat.val q) xs
          simp only [List.length_cons]
          omega

/-- Claim C9: in the motion-metric computation a missing (NaN)
framewise-displacement value is never counted as kept; NaN entries are
excluded from the scrubbed-mean input yet counted in the `proportion_kept`
denominator, so a confound column containing a missing value has
`proportion_kept < 1`. -/
theorem motion_metrics_nan_never_kept (fds : List PFloat)
    (h : PFloat.nan ∈ fds) :
    (∀ i, fds.get? i = some PFloat.nan → (kept_volumes fds).get? i = some false) ∧
    PFloat.nan ∉ bool_index fds (kept_volumes fds) ∧
    (∃ r, motion_metrics fds = .ok r ∧
      r.mean_fd_scrubbed = nanmean (bool_index fds (kept_volumes fds)) ∧
      r.proportion_kept
        = .val ((countTrue (kept_volumes fds) : ℚ) / (fds.length : ℚ)) ∧
      ∀ q : ℚ, r.proportion_kept = .val q → q < 1) := by
  have hlen : ¬ (fds.length = 0) := by
    cases fds with
    | nil => simp at h
    | cons x xs => simp
  refine ⟨?_, nan_not_mem_bool_index fds, ?_⟩
  · intro i hi
    simp only [kept_volumes]
    rw [List.get?_map, hi]
    rfl
  · refine ⟨{ mean_fd_raw := nanmean fds,
              mean_fd_scrubbed := nanmean (bool_index fds (kept_volumes fds)),
              proportion_kept :=
                .val ((countTrue (kept_volumes fds) : ℚ) / (fds.length : ℚ)),
              functional_dice := .nan,
              pass_func_qc := none }, ?_, rfl, rfl, ?_⟩
    · simp only [motion_metrics, if_neg hlen]
    · intro q hq
      have hq' : ((countTrue (kept_volumes fds) : ℚ) / (fds.length : ℚ)) = q := by
        injection hq
      rw [← hq']
      have hcount : countTrue (kept_volumes fds) < fds.length :=
        countTrue_kept_lt_length fds h
      have hpos : (0 : ℚ) < (fds.length : ℚ) := by
        exact_mod_cast Nat.pos_of_ne_zero hlen
      exact (div_lt_one hpos).mpr (by exact_mod_cast hcount)

/-- Witness for `motion_metrics_nan_never_kept` at a concrete column with
one missing value. -/
theorem motion_metrics_nan_never_kept_witness :
    PFloat.nan ∈ fds_fixture ∧
    (kept_volumes fds_fixture).get? 0 = some false ∧
    PFloat.nan ∉ bool_index fds_fixture (kept_volumes fds_fixture) := by
  have H := motion_metrics_nan_never_kept fds_fixture (by decide)
  exact ⟨by decide, H.1 0 rfl, H.2.1⟩

/-! ### Claim C8 (corrected) -/

theorem enumFrom_map_get_eq_zipWith {β : Type} (G : String → Option String → β) :
    ∀ (headers toks : List String) (n : ℕ) (f : ℕ → Option String),
      (∀ i, f (n + i) = toks.get? i) → toks.length = headers.length →
      (List.enumFrom n headers).map (fun p => G p.2 (f p.1))
        = List.zipWith (fun h v => G h (some v)) headers toks := by
  intro headers
  induction headers with
  | nil =>
      intro toks n f hf hlen
      have : toks = [] := List.length_eq_zero.mp (by simpa using hlen)
      subst this
      simp
  | cons h ht ih =>
      intro toks n f hf hlen
      match toks, hlen with
      | v :: vt, hlen =>
        simp only [List.enumFrom, List.map_cons, List.zipWith_cons_cons]
        have h0 := hf 0
        simp only [Nat.add_zero, List.get?_cons_zero] at h0
        have hf' : ∀ i, f (n + 1 + i) = vt.get? i := by
          intro i
          have h1 := hf (i + 1)
          have hadd : n + (i + 1) = n + 1 + i := by omega
          rw [hadd] at h1
          simpa using h1
        rw [h0, ih vt (n + 1) f hf' (by simpa using hlen)]

theorem zip_entities_rejoin :
    ∀ (headers toks : List String), toks.length = headers.length →
      (∀ i h v, headers.get? i = some h → toks.get? i = some v →
        ∃ w, v = h ++ "-" ++ w ∧ py_replace v (h ++ "-") "" = w) →
      (headers.zip (List.zipWith
          (fun h v => (rename_sub h, some (py_replace v (h ++ "-") ""))) headers toks)).map
        (fun p => p.1 ++ "-" ++ p.2.2.getD "") = toks := by
  intro headers
  induction headers with
  | nil =>
      intro toks hlen hcond
      have : toks = [] := List.length_eq_zero.mp (by simpa using hlen)
      subst this
      simp
  | cons h ht ih =>
      intro toks hlen hcond
      match toks, hlen with
      | v :: vt, hlen =>
        simp only [List.zipWith_cons_cons, List.zip_cons_cons, List.map_cons,
          Option.getD_some, List.cons.injEq]
        refine ⟨?_, ?_⟩
        · obtain ⟨w, hw, hrep⟩ := hcond 0 h v rfl rfl
          rw [hrep]
          exact hw.symm
        · exact ih vt (by simpa using hlen)
            (fun i hh vv hh1 hh2 => hcond (i + 1) hh vv (by simpa using hh1) (by simpa using hh2))

/-- Claim C8, as stated, is false on the code: for the identifier
`sub-sub-01` — whose single token has key `sub`, matching the first (and
only) row's key set — `str.replace` deletes every occurrence of `sub-`, so
the parsed value is `01` and re-prefixing and rejoining yields `sub-01`,
not the original identifier. -/
theorem parse_roundtrip_counterexample :
    (parse_scan_information embedded_marker_fixture).2
      = .ok { indexName := some "identifier"
              rows := [("sub-sub-01", ([("participant_id", some "01")], PFloat.val 1))] } ∧
    rejoin_identifier (parse_headers "sub-sub-01")
        (parse_row_entities (parse_headers "sub-sub-01") "sub-sub-01")
      = "sub-01" ∧
    "sub-01" ≠ "sub-sub-01" := by
  refine ⟨rfl, rfl, by decide⟩

/-- Claim C8 (amended): parsing `sub-01_task-rest` yields
`participant_id = 01` and `task = rest`; and rejoining the parsed values
with their `key-` markers and the separator reproduces the original
identifier for every identifier whose tokens match the first row's key set
and whose values do not themselves contain their `key-` marker (so that
`str.replace` deletes only the leading marker). -/
theorem parse_roundtrip_amended :
    ((parse_scan_information parse_fixture).2
        = .ok { indexName := some "identifier"
                rows := [("sub-01_task-rest",
                  ([("participant_id", some "01"), ("task", some "rest")], PFloat.val 1))] }) ∧
    (∀ id0 id : String,
      (py_split id "_").length = (parse_headers id0).length →
      (∀ i h v, (parse_headers id0).get? i = some h → (py_split id "_").get? i = some v →
        ∃ w, v = h ++ "-" ++ w ∧ py_replace v (h ++ "-") "" = w) →
      rejoin_identifier (parse_headers id0)
        (parse_row_entities (parse_headers id0) id) = id) := by
  constructor
  · rfl
  · intro id0 id hlen hcond
    have hzip := enumFrom_map_get_eq_zipWith
      (fun h o => (rename_sub h, o.map (fun t => py_replace t (h ++ "-") "")))
      (parse_headers id0) (py_split id "_") 0 (fun i => (py_split id "_").get? i)
      (fun i => by simp) hlen
    simp only [rejoin_identifier, parse_row_entities, List.enum]
    rw [hzip]
    simp only [Option.map_some']
    rw [zip_entities_rejoin (parse_headers id0) (py_split id "_") hlen hcond]
    exact py_split_intercalate id "_" (by decide)

/-- Witness for the round-trip part of `parse_roundtrip_amended`, at the
identifier `sub-01_task-rest` against its own key set. -/
theorem parse_roundtrip_amended_witness :
    rejoin_identifier (parse_headers "sub-01_task-rest")
      (parse_row_entities (parse_headers "sub-01_task-rest") "sub-01_task-rest")
      = "sub-01_task-rest" := by
  refine parse_roundtrip_amended.2 "sub-01_task-rest" "sub-01_task-rest" rfl ?_
  intro i h v hh hv
  match i, hh, hv with
  | 0, hh, hv =>
      have hh0 : h = "sub" := Option.some.inj ((rfl :
        (parse_headers "sub-01_task-rest").get? 0 = some "sub") ▸ hh).symm
      have hv0 : v = "sub-01" := Option.some.inj ((rfl :
        (py_split "sub-01_task-rest" "_").get? 0 = some "sub-01") ▸ hv).symm
      subst hh0
      subst hv0
      exact ⟨"01", rfl, rfl⟩
  | 1, hh, hv =>
      have hh0 : h = "task" := Option.some.inj ((rfl :
        (parse_headers "sub-01_task-rest").get? 1 = some "task") ▸ hh).symm
      have hv0 : v = "task-rest" := Option.some.inj ((rfl :
        (py_split "sub-01_task-rest" "_").get? 1 = some "task-rest") ▸ hv).symm
      subst hh0
      subst hv0
      exact ⟨"rest", rfl, rfl⟩
  | n + 2, hh, hv => exact absurd hh (by intro hcon; exact Option.noConfusion hcon)
